import Mathlib

/-
Shallow embedding of the MONO gallery submissions client
(src/templates/app_template.js, with src/unnamed/part_001 as the
near-duplicate variant).  Pure viewer state and browser history are
modelled explicitly; DOM mutation, CSS classes and timers are outside
the modelled state.  JS floating point numbers are modelled as
rationals, JS numbers used as indices as integers.
-/

/-- One team record, as produced by the external build step and embedded
into the page as TEAMS_DATA (see src/unnamed/part_000 for the schema). -/
structure TeamRecord where
  team_number : Int
  team_name : String
  members : List String
  course : String
  batch : String
  semester : Int
  contact : String
  images : List String
  upload_time : String
  notes : Option String
  deriving DecidableEq

/-- The mutable fields of the GalleryApp instance that the claims are
about, together with the browser history.  Each history entry is the
query part of the URL: none is the bare path (no team or photo
parameters), some (t, p) is the query string team=t and photo=p as
written by updateURL.  The head of the list is the current entry. -/
structure AppState where
  teams : List TeamRecord
  currentTeam : Int
  currentPhoto : Int
  currentRotation : Int
  currentScale : ℚ
  imageOffsetX : ℚ
  imageOffsetY : ℚ
  isModalOpen : Bool
  history : List (Option (Int × Int))
  deriving DecidableEq

/-- The GalleryApp constructor defaults (app_template.js lines 140-155),
parameterised by the embedded dataset and the initial history. -/
def initialState (teams : List TeamRecord) (history : List (Option (Int × Int))) : AppState :=
  { teams := teams
    currentTeam := 1
    currentPhoto := 1
    currentRotation := 0
    currentScale := 1.0
    imageOffsetX := 0
    imageOffsetY := 0
    isModalOpen := false
    history := history }

/-- JS Array.prototype.sort with comparator (a, b) => a - b sorts the
team numbers ascending (app_template.js line 917); modelled by
insertion sort, which agrees with it on every list. -/
def sortAsc (l : List Int) : List Int := l.insertionSort (· ≤ ·)

/-- teamNumbers for navigateTeam (app_template.js line 917). -/
def sortedTeamNumbers (s : AppState) : List Int :=
  sortAsc (s.teams.map (fun t => t.team_number))

/-- JS Array.prototype.indexOf: first index of x, or -1 when absent. -/
def jsIndexOf (x : Int) (l : List Int) : Int :=
  match l.findIdx? (fun y => y == x) with
  | some i => (i : Int)
  | none => -1

/-- navigateTeam (app_template.js lines 916-931): advance the current
team cyclically through the ascending team numbers.  It mutates only
currentTeam.  The array access teamNumbers[newIndex] is modelled with
getD; for a nonempty dataset the wrapped index is always in bounds. -/
def navigateTeam (direction : Int) (s : AppState) : AppState :=
  let teamNumbers := sortedTeamNumbers s
  let currentIndex := jsIndexOf s.currentTeam teamNumbers
  let newIndex := currentIndex + direction
  let newIndex := if newIndex ≥ (teamNumbers.length : Int) then 0
                  else if newIndex < 0 then (teamNumbers.length : Int) - 1
                  else newIndex
  { s with currentTeam := teamNumbers.getD newIndex.toNat 0 }

/-- updateImage (app_template.js lines 703-743) restricted to the
modelled state: look up the current team; when absent return early,
otherwise reset the transform state (scale, offsets, rotation).  The
image element update, the preload queue requests it issues, and the
asynchronous load callback (whose guard is modelled separately as
staleResultGuard) only touch state outside AppState. -/
def updateImage (s : AppState) : AppState :=
  match s.teams.find? (fun t => t.team_number == s.currentTeam) with
  | none => s
  | some _ =>
    { s with currentScale := 1.0, imageOffsetX := 0, imageOffsetY := 0, currentRotation := 0 }

/-- history.replaceState: overwrite the current history entry. -/
def replaceTop (entry : Option (Int × Int)) (h : List (Option (Int × Int))) :
    List (Option (Int × Int)) :=
  match h with
  | [] => [entry]
  | _ :: rest => entry :: rest

/-- updateURL (app_template.js lines 1007-1012): write team and photo as
query parameters via history.replaceState. -/
def updateURL (s : AppState) : AppState :=
  { s with history := replaceTop (some (s.currentTeam, s.currentPhoto)) s.history }

/-- showModal with type gallery (app_template.js lines 631-657): the
modelled effect is isModalOpen := true. -/
def showModalGallery (s : AppState) : AppState :=
  { s with isModalOpen := true }

/-- openGallery (app_template.js lines 597-610): set team and photo,
reset the transform state, open the modal, run updateImage and
updateURL.  showKeyboardHint is DOM only. -/
def openGallery (teamNumber photoNumber : Int) (s : AppState) : AppState :=
  let s := { s with
    currentTeam := teamNumber
    currentPhoto := photoNumber
    currentRotation := 0
    currentScale := 1.0
    imageOffsetX := 0
    imageOffsetY := 0 }
  updateURL (updateImage (showModalGallery s))

/-- closeModal (app_template.js lines 660-673): close the modal, push
the bare path as a new history entry, reset the image state. -/
def closeModal (s : AppState) : AppState :=
  { s with
    isModalOpen := false
    history := none :: s.history
    currentScale := 1.0
    imageOffsetX := 0
    imageOffsetY := 0
    currentRotation := 0 }

/-- navigateImage (app_template.js lines 897-913): step currentPhoto by
direction; past the hardcoded index 4 switch to the next team at photo
1, below 1 switch to the previous team at photo 4; then updateImage and
updateURL. -/
def navigateImage (direction : Int) (s : AppState) : AppState :=
  let s := { s with currentPhoto := s.currentPhoto + direction }
  let s :=
    if s.currentPhoto > 4 then
      { navigateTeam 1 s with currentPhoto := 1 }
    else if s.currentPhoto < 1 then
      { navigateTeam (-1) s with currentPhoto := 4 }
    else s
  updateURL (updateImage s)

/-- The ArrowUp and ArrowDown keyboard paths (app_template.js lines
957-968): navigateTeam, then updateImage, then updateURL. -/
def keyNavigateTeam (direction : Int) (s : AppState) : AppState :=
  updateURL (updateImage (navigateTeam direction s))

/-- The guard in the updateImage load callback (app_template.js lines
718-720), transcribed literally: this.isModalOpen and
this.currentTeam === team.team_number and
this.currentPhoto === this.currentPhoto.  The captured team record
supplies team.team_number; the third conjunct compares the live field
with itself, exactly as in the source. -/
def staleResultGuard (capturedTeamNumber : Int) (s : AppState) : Bool :=
  s.isModalOpen && (s.currentTeam == capturedTeamNumber) &&
    (s.currentPhoto == s.currentPhoto)

/-- adjustSize (src/unnamed/part_001 lines 323-330): clamp the new scale
to the interval from 0.3 to 5.0 and reset the pan offset whenever the
resulting scale is at most 1.0.  The wheel handler calls this with
delta plus or minus 0.1, the keyboard and buttons with plus or minus
0.2. -/
def adjustSize (delta : ℚ) (s : AppState) : AppState :=
  let s := { s with currentScale := min (max (s.currentScale + delta) 0.3) 5.0 }
  if s.currentScale ≤ 1.0 then { s with imageOffsetX := 0, imageOffsetY := 0 } else s

/-- increaseSize (app_template.js lines 527-533): clamp above at 5.0
only; the pan offset is never touched. -/
def increaseSize (s : AppState) : AppState :=
  { s with currentScale := min (s.currentScale + 0.2) 5.0 }

/-- decreaseSize (app_template.js lines 536-546): clamp below at 0.3 and
reset the pan offset whenever the resulting scale is at most 1.0. -/
def decreaseSize (s : AppState) : AppState :=
  let s := { s with currentScale := max (s.currentScale - 0.2) 0.3 }
  if s.currentScale ≤ 1.0 then { s with imageOffsetX := 0, imageOffsetY := 0 } else s

/-- Whitespace skipped by JS parseInt before reading the number. -/
def jsWhitespace (c : Char) : Bool :=
  (c == ' ') || (c == '\t') || (c == '\n') || (c == '\r')

/-- Hexadecimal digit test for the 0x form accepted by JS parseInt. -/
def isHexDigitChar (c : Char) : Bool :=
  c.isDigit || ((('a' : Char) ≤ c) && (c ≤ ('f' : Char))) ||
    ((('A' : Char) ≤ c) && (c ≤ ('F' : Char)))

/-- Numeric value of a hexadecimal digit. -/
def hexVal (c : Char) : Nat :=
  if c.isDigit then c.toNat - 48
  else if (('a' : Char) ≤ c) && (c ≤ ('f' : Char)) then c.toNat - 87
  else c.toNat - 55

/-- Longest leading run of decimal digits, none when there is no digit:
JS parseInt stops at the first character that is not a digit and
returns NaN when no digit was read. -/
def parseDecDigits (cs : List Char) : Option Nat :=
  let ds := cs.takeWhile Char.isDigit
  if ds.isEmpty then none
  else some (ds.foldl (fun a c => a * 10 + (c.toNat - 48)) 0)

/-- Longest leading run of hexadecimal digits after a 0x marker. -/
def parseHexDigits (cs : List Char) : Option Nat :=
  let ds := cs.takeWhile isHexDigitChar
  if ds.isEmpty then none
  else some (ds.foldl (fun a c => a * 16 + hexVal c) 0)

/-- The unsigned part of JS parseInt with default radix: a 0x or 0X
marker selects base 16, otherwise base 10. -/
def parseIntCore (cs : List Char) : Option Nat :=
  match cs with
  | '0' :: 'x' :: rest => parseHexDigits rest
  | '0' :: 'X' :: rest => parseHexDigits rest
  | _ => parseDecDigits cs

/-- JS parseInt applied to URLSearchParams.get: the parameter being
absent gives null, and parseInt(null) is NaN; otherwise leading
whitespace is skipped, an optional sign read, then digits; none models
NaN. -/
def parseIntJS (o : Option String) : Option Int :=
  match o with
  | none => none
  | some str =>
    match str.toList.dropWhile jsWhitespace with
    | '-' :: rest => (parseIntCore rest).map (fun n => -(n : Int))
    | '+' :: rest => (parseIntCore rest).map (fun n => (n : Int))
    | cs => (parseIntCore cs).map (fun n => (n : Int))

/-- handleURLParams (app_template.js lines 1015-1026): parse the team and
photo query parameters with parseInt; the JS truthiness test team and
photo passes exactly when both parsed to a number other than 0 (NaN and
0 are falsy); then openGallery is called with the parsed values with no
further validation.  The setTimeout delay is modelled as an immediate
call.  The popstate handler (lines 1103-1106) reruns this same
function. -/
def handleURLParams (teamParam photoParam : Option String) (s : AppState) : AppState :=
  match parseIntJS teamParam, parseIntJS photoParam with
  | some team, some photo =>
    if (team != 0) && (photo != 0) then openGallery team photo s else s
  | _, _ => s

/-- One entry of the PreloadQueue pending array (app_template.js line
43): url and priority as in the source; seq is the position of the
surrounding add call in the global order of add calls, recording
insertion order (the JS array keeps it implicitly). -/
structure PreloadTask where
  url : String
  priority : Int
  seq : Nat
  deriving DecidableEq

/-- The state of the PreloadQueue together with the shared ImageCache
(app_template.js lines 5-46).  queue is the pending array, earlier
elements dispatched first; active lists the tasks whose load has been
started and not yet completed (its length is activeLoads); loading is
the key set of the loadingPromises map; cached is the key set of the
cache map; loads records every started underlying image load in order
(each new Image() whose src is set in loadImage); nextSeq counts the
add calls so far. -/
structure PreloadState where
  maxConcurrent : Nat
  queue : List PreloadTask
  active : List PreloadTask
  loading : List String
  cached : List String
  loads : List String
  nextSeq : Nat
  deriving DecidableEq

/-- Key insertion for a JS Map modelled as a duplicate-free list. -/
def insertUrl (u : String) (l : List String) : List String :=
  if u ∈ l then l else u :: l

/-- Key removal for a JS Map modelled as a duplicate-free list. -/
def removeUrl (u : String) (l : List String) : List String :=
  l.filter (fun v => !(v == u))

/-- The insertion loop of PreloadQueue.add (app_template.js lines
65-76): splice the task in before the first queued task of strictly
lower priority, or push it at the end. -/
def insertByPriority (t : PreloadTask) : List PreloadTask → List PreloadTask
  | [] => [t]
  | u :: us => if u.priority < t.priority then t :: u :: us else u :: insertByPriority t us

/-- One iteration bundle of the processQueue while loop together with
loadImage (app_template.js lines 82-118): as long as a slot is free and
the queue is nonempty, shift the head task, increment activeLoads,
register the loading promise and start the underlying image load.  The
fuel argument bounds the iterations; the loop runs at most queue.length
times since each iteration removes one queued task. -/
def dispatchLoop : Nat → PreloadState → PreloadState
  | 0, s => s
  | fuel + 1, s =>
    match s.queue with
    | [] => s
    | task :: rest =>
      if s.active.length < s.maxConcurrent then
        dispatchLoop fuel
          { s with
            queue := rest
            active := s.active ++ [task]
            loading := insertUrl task.url s.loading
            loads := s.loads ++ [task.url] }
      else s

/-- processQueue (app_template.js lines 82-87). -/
def processQueue (s : PreloadState) : PreloadState :=
  dispatchLoop s.queue.length s

/-- PreloadQueue.add (app_template.js lines 48-80): a cached url
resolves immediately and a url with a pending load attaches to that
promise, neither touching the queue; otherwise the task is inserted by
priority and processQueue runs. -/
def queueAdd (u : String) (priority : Int) (s : PreloadState) : PreloadState :=
  if u ∈ s.cached then s
  else if u ∈ s.loading then s
  else
    processQueue
      { s with
        queue := insertByPriority { url := u, priority := priority, seq := s.nextSeq } s.queue
        nextSeq := s.nextSeq + 1 }

/-- Completion of the load started for the active task at position i
(app_template.js lines 98-115): on success the onload handler caches
the image; the finally handlers delete the loading promise, decrement
activeLoads and rerun processQueue.  An out-of-range index is a no-op
event. -/
def queueComplete (i : Nat) (success : Bool) (s : PreloadState) : PreloadState :=
  match s.active[i]? with
  | none => s
  | some task =>
    processQueue
      { s with
        active := s.active.eraseIdx i
        loading := removeUrl task.url s.loading
        cached := if success then insertUrl task.url s.cached else s.cached }

/-- The externally visible events of the queue: an add call, or the
completion (success or failure) of the i-th active load. -/
inductive QueueEvent where
  | add (url : String) (priority : Int)
  | complete (idx : Nat) (success : Bool)
  deriving DecidableEq

/-- Apply one queue event. -/
def applyEvent (e : QueueEvent) (s : PreloadState) : PreloadState :=
  match e with
  | QueueEvent.add u p => queueAdd u p s
  | QueueEvent.complete i ok => queueComplete i ok s

/-- Run a sequence of queue events from a state. -/
def runEvents (es : List QueueEvent) (s : PreloadState) : PreloadState :=
  es.foldl (fun s e => applyEvent e s) s

/-- The queue as constructed (app_template.js lines 40-46); the class
default for maxConcurrent is 6 and the app instantiates it with 6. -/
def initQueue (k : Nat) : PreloadState :=
  { maxConcurrent := k, queue := [], active := [], loading := [], cached := []
    loads := [], nextSeq := 0 }

/-- Dispatch order between two queued tasks: a comes strictly before b
when a has higher priority, or equal priority and an earlier add call.
The queue being pairwise ordered by this relation is exactly priority
order with FIFO ties. -/
def taskOrder (a b : PreloadTask) : Prop :=
  b.priority < a.priority ∨ (a.priority = b.priority ∧ a.seq < b.seq)

/-- The queue invariant: pending tasks are pairwise in dispatch order
(so the head, which processQueue dispatches first, is always a pending
task of maximal priority and, among those, the earliest added), all
pending sequence numbers are in the past, the number of active loads
never exceeds the concurrency limit, and whenever work is pending every
slot is occupied. -/
def QueueInv (s : PreloadState) : Prop :=
  s.queue.Pairwise taskOrder ∧
  (∀ t ∈ s.queue, t.seq < s.nextSeq) ∧
  s.active.length ≤ s.maxConcurrent ∧
  (s.queue ≠ [] → s.active.length = s.maxConcurrent)

/-- A sample dataset record: team 1 with a complete 4 image
submission. -/
def sampleTeam1 : TeamRecord :=
  { team_number := 1, team_name := "Alpha", members := ["A", "B"], course := "BSc"
    batch := "A", semester := 5, contact := "0123", images := ["a1", "a2", "a3", "a4"]
    upload_time := "t1", notes := none }

/-- A sample dataset record: team 2 with a complete 4 image
submission. -/
def sampleTeam2 : TeamRecord :=
  { team_number := 2, team_name := "Beta", members := ["C"], course := "BBA"
    batch := "B", semester := 3, contact := "0456", images := ["b1", "b2", "b3", "b4"]
    upload_time := "t2", notes := none }

/-- The app state at startup over the two team sample dataset, with the
bare path as the only history entry. -/
def sampleState : AppState := initialState [sampleTeam1, sampleTeam2] [none]

/-- The spec scenario for the queue: three distinct urls requested back
to back with priorities 5, 10 and 1. -/
def c5ScenarioEvents : List QueueEvent :=
  [QueueEvent.add "u1" 5, QueueEvent.add "u2" 10, QueueEvent.add "u3" 1]

/-- A run exhibiting the duplicate load: with limit 1, url v takes the
slot, then two requests for url u arrive while u is neither cached nor
in flight; both completions then run. -/
def c6ScenarioEvents : List QueueEvent :=
  [QueueEvent.add "v" 5, QueueEvent.add "u" 3, QueueEvent.add "u" 7,
   QueueEvent.complete 0 true, QueueEvent.complete 0 true]

/-- A team with an incomplete submission: only 3 images (the spec data
model allows fewer than 4 when a submission is incomplete). -/
def shortTeam : TeamRecord :=
  { team_number := 1, team_name := "Gamma", members := ["E"], course := "BSc"
    batch := "A", semester := 1, contact := "0789", images := ["g1", "g2", "g3"]
    upload_time := "t3", notes := none }

/-- Dataset whose first team has 3 images, second team has 4. -/
def shortState : AppState := initialState [shortTeam, sampleTeam2] [none]

/-- A reachable state with scale 0.8 and a nonzero pan offset: from
openGallery, decreaseSize brings the scale to 0.8 and a mouse drag sets
the offsets (dragging is enabled whenever the modal is open, at any
scale). -/
def panState : AppState :=
  { sampleState with currentScale := 0.8, imageOffsetX := 10, imageOffsetY := 10 }

/-- Fields of AppState other than the transform state and the history
are untouched by updateImage; the transform reset does not change team,
photo, teams, modal flag or history. -/
theorem updateImage_frame (s : AppState) :
    (updateImage s).history = s.history ∧ (updateImage s).currentTeam = s.currentTeam ∧
    (updateImage s).currentPhoto = s.currentPhoto ∧ (updateImage s).teams = s.teams ∧
    (updateImage s).isModalOpen = s.isModalOpen := by
  unfold updateImage
  cases s.teams.find? (fun t => t.team_number == s.currentTeam) <;> simp

/-- replaceState puts the entry at the top of the history. -/
theorem replaceTop_head (e : Option (Int × Int)) (h : List (Option (Int × Int))) :
    (replaceTop e h).head? = some e := by
  cases h <;> rfl

/-- replaceState keeps the history length when the history is nonempty. -/
theorem replaceTop_length (e : Option (Int × Int)) (h : List (Option (Int × Int)))
    (hne : h ≠ []) : (replaceTop e h).length = h.length := by
  cases h with
  | nil => exact absurd rfl hne
  | cons a rest => rfl

/-- replaceState keeps every earlier history entry. -/
theorem replaceTop_tail (e : Option (Int × Int)) (h : List (Option (Int × Int))) :
    (replaceTop e h).tail = h.tail := by
  cases h <;> rfl

/-- C1.  For a valid pair of team and photo in the dataset, openGallery
leaves the viewer state at exactly that team and photo with scale 1.0,
rotation 0 and pan offset (0, 0) (and the gallery modal open). -/
theorem c1_openGallery_state (s : AppState) (t p : Int) (team : TeamRecord)
    (hmem : team ∈ s.teams) (ht : team.team_number = t)
    (hp1 : 1 ≤ p) (hp2 : p ≤ (team.images.length : Int)) :
    (openGallery t p s).currentTeam = t ∧ (openGallery t p s).currentPhoto = p ∧
    (openGallery t p s).currentScale = 1.0 ∧ (openGallery t p s).currentRotation = 0 ∧
    (openGallery t p s).imageOffsetX = 0 ∧ (openGallery t p s).imageOffsetY = 0 ∧
    (openGallery t p s).isModalOpen = true := by
  simp only [openGallery, updateURL, updateImage, showModalGallery]
  split <;> simp

/-- Witness for C1 at team 2, photo 3 of the sample dataset. -/
theorem c1_witness :
    (openGallery 2 3 sampleState).currentTeam = 2 ∧
    (openGallery 2 3 sampleState).currentPhoto = 3 ∧
    (openGallery 2 3 sampleState).currentScale = 1.0 ∧
    (openGallery 2 3 sampleState).currentRotation = 0 ∧
    (openGallery 2 3 sampleState).imageOffsetX = 0 ∧
    (openGallery 2 3 sampleState).imageOffsetY = 0 ∧
    (openGallery 2 3 sampleState).isModalOpen = true :=
  c1_openGallery_state sampleState 2 3 sampleTeam2 (by decide) (by decide)
    (by decide) (by decide)

/-- C2.  navigateImage wraps at the hardcoded photo index 4, not at the
current team images length: with team 1 holding only 3 images, stepping
forward from photo 3 yields photo 4 of team 1 (out of bounds for that
team) instead of wrapping to team 2 photo 1.  On teams with exactly 4
images the claimed scenario does hold, as the last conjuncts show. -/
theorem c2_fixedFourWrap_bug :
    (navigateImage 1 (openGallery 1 3 shortState)).currentTeam = 1 ∧
    (navigateImage 1 (openGallery 1 3 shortState)).currentPhoto = 4 ∧
    shortTeam.images.length = 3 ∧
    (navigateImage 1 (openGallery 1 4 sampleState)).currentTeam = 2 ∧
    (navigateImage 1 (openGallery 1 4 sampleState)).currentPhoto = 1 ∧
    (navigateImage (-1) (openGallery 2 1 sampleState)).currentTeam = 1 ∧
    (navigateImage (-1) (openGallery 2 1 sampleState)).currentPhoto = 4 := by
  decide

/-- C3.  openGallery and the URL restoration path perform no validation:
restoring from the query string team=999 and photo=42 over the sample
dataset (whose teams are 1 and 2, each with 4 images) leaves the viewer
open at a team number that exists in no record, with a photo index out
of every bound. -/
theorem c3_noValidation_bug :
    (handleURLParams (some "999") (some "42") sampleState).currentTeam = 999 ∧
    (handleURLParams (some "999") (some "42") sampleState).currentPhoto = 42 ∧
    (handleURLParams (some "999") (some "42") sampleState).isModalOpen = true ∧
    sampleState.teams.all (fun t => t.team_number != 999) = true ∧
    sampleState.teams.all (fun t => decide ((t.images.length : Int) < 42)) = true := by
  decide

/-- C7.  The stale result guard is vacuous in its photo component: after
opening team 1 photo 1 and navigating to photo 2 of the same team, the
guard for a load that captured team 1 while photo 1 was displayed still
evaluates to true, so the late resolving image for photo 1 replaces the
photo 2 view instead of being discarded. -/
theorem c7_staleGuard_bug :
    (navigateImage 1 (openGallery 1 1 sampleState)).currentTeam = 1 ∧
    (navigateImage 1 (openGallery 1 1 sampleState)).currentPhoto = 2 ∧
    staleResultGuard 1 (navigateImage 1 (openGallery 1 1 sampleState)) = true := by
  decide

/-- C10.  The viewer is opened from the URL exactly when both query
parameters parse with parseInt to a nonzero value; a missing parameter
or a parse to NaN or 0 leaves the state unchanged; any other parsed
value, negative or out of range included, is handed to openGallery with
no further validation. -/
theorem c10_urlParams_truthiness (s : AppState) (tp pp : Option String) :
    (∀ a b : Int, parseIntJS tp = some a → parseIntJS pp = some b →
      ((a != 0) && (b != 0)) = true → handleURLParams tp pp s = openGallery a b s) ∧
    (parseIntJS tp = none → handleURLParams tp pp s = s) ∧
    (parseIntJS pp = none → handleURLParams tp pp s = s) ∧
    (parseIntJS tp = some 0 → handleURLParams tp pp s = s) ∧
    (parseIntJS pp = some 0 → handleURLParams tp pp s = s) := by
  refine ⟨fun a b ha hb hab => ?_, fun h => ?_, fun h => ?_, fun h => ?_, fun h => ?_⟩
  · simp [handleURLParams, ha, hb, hab]
  · cases hpp : parseIntJS pp <;> simp [handleURLParams, h, hpp]
  · cases htp : parseIntJS tp <;> simp [handleURLParams, h, htp]
  · cases hpp : parseIntJS pp <;> simp [handleURLParams, h, hpp]
  · cases htp : parseIntJS tp <;> simp [handleURLParams, h, htp]

/-- Witness for C10: a negative team parameter is accepted and passed to
openGallery, and an empty photo parameter leaves the viewer closed. -/
theorem c10_witness :
    handleURLParams (some "-5") (some "2") sampleState = openGallery (-5) 2 sampleState ∧
    handleURLParams (some "7") (some "") sampleState = sampleState :=
  ⟨(c10_urlParams_truthiness sampleState (some "-5") (some "2")).1 (-5) 2
      (by decide) (by decide) (by decide),
   (c10_urlParams_truthiness sampleState (some "7") (some "")).2.2.1 (by decide)⟩

/-- C4 counterexample.  From team 1 photo 3, the team navigation used by
the ArrowDown key (navigateTeam, then updateImage, then updateURL)
moves to team 2 but leaves currentPhoto at 3: navigateTeam does not
reset currentPhoto to 1 (only the wrap inside navigateImage does). -/
theorem c4_photoReset_counterexample :
    (keyNavigateTeam 1 (openGallery 1 3 sampleState)).currentTeam = 2 ∧
    (keyNavigateTeam 1 (openGallery 1 3 sampleState)).currentPhoto = 3 ∧
    (navigateTeam 1 (openGallery 1 3 sampleState)).currentPhoto = 3 ∧
    (((3 : Int)) == 1) = false := by
  decide

/-- C4 as amended.  navigateTeam advances currentTeam cyclically through
the team numbers sorted ascending (one step forward or backward with
wraparound) and leaves currentPhoto unchanged; the keyboard path that
wraps it in updateImage and updateURL also leaves currentPhoto
unchanged. -/
theorem c4_navigateTeam_amended (s : AppState) (d : Int) (i n : Nat)
    (hn : (sortedTeamNumbers s).length = n) (hpos : 0 < n)
    (hidx : jsIndexOf s.currentTeam (sortedTeamNumbers s) = (i : Int)) (hi : i < n) :
    (navigateTeam 1 s).currentTeam = (sortedTeamNumbers s).getD ((i + 1) % n) 0 ∧
    (navigateTeam (-1) s).currentTeam = (sortedTeamNumbers s).getD ((i + n - 1) % n) 0 ∧
    (navigateTeam d s).currentPhoto = s.currentPhoto ∧
    (keyNavigateTeam d s).currentPhoto = s.currentPhoto ∧
    (keyNavigateTeam d s).currentTeam = (navigateTeam d s).currentTeam ∧
    List.Sorted (· ≤ ·) (sortedTeamNumbers s) := by
  refine ⟨?_, ?_, rfl, ?_, ?_, ?_⟩
  · simp only [navigateTeam, hidx, hn]
    by_cases h : i + 1 = n
    · rw [if_pos (by omega)]
      have hmod : (i + 1) % n = 0 := by rw [h, Nat.mod_self]
      rw [hmod]
      congr 1
    · rw [if_neg (by omega), if_neg (by omega)]
      have hmod : (i + 1) % n = i + 1 := Nat.mod_eq_of_lt (by omega)
      rw [hmod]
      congr 1
  · simp only [navigateTeam, hidx, hn]
    by_cases h : i = 0
    · rw [if_neg (by omega), if_pos (by omega)]
      have hmod : (i + n - 1) % n = n - 1 := by
        have e : i + n - 1 = n - 1 := by omega
        rw [e]
        exact Nat.mod_eq_of_lt (by omega)
      rw [hmod]
      congr 1
      omega
    · rw [if_neg (by omega), if_neg (by omega)]
      have hmod : (i + n - 1) % n = i - 1 := by
        have e : i + n - 1 = (i - 1) + n := by omega
        rw [e, Nat.add_mod_right]
        exact Nat.mod_eq_of_lt (by omega)
      rw [hmod]
      congr 1
      omega
  · have h := updateImage_frame (navigateTeam d s)
    simp only [keyNavigateTeam, updateURL]
    rw [h.2.2.1]
    rfl
  · have h := updateImage_frame (navigateTeam d s)
    simp only [keyNavigateTeam, updateURL]
    rw [h.2.1]
  · exact List.sorted_insertionSort _ _

/-- Witness for the amended C4 on the sample dataset: from team 1 photo
3, one forward step lands on the team at sorted index 1, which is team
2, and the photo stays 3. -/
theorem c4_witness :
    (navigateTeam 1 (openGallery 1 3 sampleState)).currentTeam = 2 ∧
    (navigateTeam 1 (openGallery 1 3 sampleState)).currentPhoto = 3 := by
  have h := c4_navigateTeam_amended (openGallery 1 3 sampleState) 1 0 2
    (by decide) (by decide) (by decide) (by decide)
  refine ⟨?_, h.2.2.1.trans (by decide)⟩
  rw [h.1]
  decide

/-- C8.  Every user level navigation (openGallery, photo navigation,
keyboard team navigation) ends by writing team and photo of the
resulting state as the current URL query through replaceState: the top
history entry becomes that pair while the number of entries and all
earlier entries are unchanged.  closeModal instead pushes the bare
path: the top entry becomes none and the history grows by one entry,
the previous entries all kept. -/
theorem c8_urlSync (s : AppState) (t p d : Int) (hh : s.history ≠ []) :
    ((openGallery t p s).history.head? = some (some (t, p)) ∧
     (openGallery t p s).history.length = s.history.length ∧
     (openGallery t p s).history.tail = s.history.tail) ∧
    ((navigateImage d s).history.head? =
        some (some ((navigateImage d s).currentTeam, (navigateImage d s).currentPhoto)) ∧
     (navigateImage d s).history.length = s.history.length ∧
     (navigateImage d s).history.tail = s.history.tail) ∧
    ((keyNavigateTeam d s).history.head? =
        some (some ((keyNavigateTeam d s).currentTeam, (keyNavigateTeam d s).currentPhoto)) ∧
     (keyNavigateTeam d s).history.length = s.history.length ∧
     (keyNavigateTeam d s).history.tail = s.history.tail) ∧
    ((closeModal s).history.head? = some none ∧
     (closeModal s).history.length = s.history.length + 1 ∧
     (closeModal s).history.tail = s.history) := by
  have hproj : ∀ u : AppState, (updateURL (updateImage u)).currentTeam = u.currentTeam ∧
      (updateURL (updateImage u)).currentPhoto = u.currentPhoto := fun u =>
    ⟨(updateImage_frame u).2.1, (updateImage_frame u).2.2.1⟩
  have frame : ∀ u : AppState, u.history = s.history →
      (updateURL (updateImage u)).history.head? =
        some (some (u.currentTeam, u.currentPhoto)) ∧
      (updateURL (updateImage u)).history.length = s.history.length ∧
      (updateURL (updateImage u)).history.tail = s.history.tail := by
    intro u hu
    have hf := updateImage_frame u
    refine ⟨?_, ?_, ?_⟩
    · simp only [updateURL, replaceTop_head, hf.2.1, hf.2.2.1]
    · simp only [updateURL]
      rw [replaceTop_length _ _ (by rw [hf.1, hu]; exact hh), hf.1, hu]
    · simp only [updateURL]
      rw [replaceTop_tail, hf.1, hu]
  refine ⟨?_, ?_, ?_, ?_⟩
  · simp only [openGallery]
    exact ⟨(frame _ (by rfl)).1, (frame _ (by rfl)).2.1, (frame _ (by rfl)).2.2⟩
  · simp only [navigateImage]
    split
    · rw [(hproj _).1, (hproj _).2]
      exact ⟨(frame _ (by rfl)).1, (frame _ (by rfl)).2.1, (frame _ (by rfl)).2.2⟩
    · split
      · rw [(hproj _).1, (hproj _).2]
        exact ⟨(frame _ (by rfl)).1, (frame _ (by rfl)).2.1, (frame _ (by rfl)).2.2⟩
      · rw [(hproj _).1, (hproj _).2]
        exact ⟨(frame _ (by rfl)).1, (frame _ (by rfl)).2.1, (frame _ (by rfl)).2.2⟩
  · simp only [keyNavigateTeam]
    rw [(hproj (navigateTeam d s)).1, (hproj (navigateTeam d s)).2]
    exact ⟨(frame _ (by rfl)).1, (frame _ (by rfl)).2.1, (frame _ (by rfl)).2.2⟩
  · refine ⟨rfl, by simp [closeModal], rfl⟩

/-- Witness for C8 from a concrete open state with a one-entry history. -/
theorem c8_witness :
    (openGallery 1 2 sampleState).history.head? = some (some (1, 2)) ∧
    (closeModal (openGallery 1 2 sampleState)).history.head? = some none ∧
    (closeModal (openGallery 1 2 sampleState)).history.length =
      (openGallery 1 2 sampleState).history.length + 1 :=
  ⟨(c8_urlSync sampleState 1 2 1 (by decide)).1.1,
   (c8_urlSync (openGallery 1 2 sampleState) 1 2 1 (by decide)).2.2.2.1,
   (c8_urlSync (openGallery 1 2 sampleState) 1 2 1 (by decide)).2.2.2.2.1⟩

/-- C9 counterexample.  increaseSize applied at scale 0.8 with pan
offset (10, 10), a state reachable by zooming out and then dragging,
yields scale 1.0, which is at most 1.0, yet the pan offset stays
(10, 10) rather than being reset to (0, 0): the zoom-in button path
never resets the pan offset. -/
theorem c9_increaseSize_counterexample :
    (increaseSize panState).currentScale = 1.0 ∧
    (increaseSize panState).currentScale ≤ 1.0 ∧
    (increaseSize panState).imageOffsetX = 10 ∧
    (increaseSize panState).imageOffsetY = 10 := by
  have h : (increaseSize panState).currentScale = 1.0 := by
    show min (panState.currentScale + 0.2) 5.0 = 1.0
    norm_num [panState, sampleState, initialState]
  exact ⟨h, by rw [h], rfl, rfl⟩

/-- C9 as amended.  The wheel, keyboard and pinch path adjustSize (and
the zoom-out button decreaseSize) clamp the scale to the interval from
0.3 to 5.0, are idempotent at both clamping boundaries, and reset the
pan offset whenever the resulting scale is at most 1.0; the zoom-in
button increaseSize clamps at 5.0 and is idempotent there, but leaves
the pan offset unchanged in every case, even when the resulting scale
is at most 1.0. -/
theorem c9_setScale_amended (s : AppState) (d : ℚ) :
    (0.3 ≤ (adjustSize d s).currentScale ∧ (adjustSize d s).currentScale ≤ 5.0) ∧
    ((adjustSize d s).currentScale ≤ 1.0 →
      (adjustSize d s).imageOffsetX = 0 ∧ (adjustSize d s).imageOffsetY = 0) ∧
    (s.currentScale ≤ 5.0 → 5.0 ≤ s.currentScale + d →
      adjustSize d (adjustSize d s) = adjustSize d s) ∧
    (0.3 ≤ s.currentScale → s.currentScale + d ≤ 0.3 →
      adjustSize d (adjustSize d s) = adjustSize d s) ∧
    (0.3 ≤ (decreaseSize s).currentScale ∧
      (s.currentScale ≤ 5.0 → (decreaseSize s).currentScale ≤ 5.0)) ∧
    ((decreaseSize s).currentScale ≤ 1.0 →
      (decreaseSize s).imageOffsetX = 0 ∧ (decreaseSize s).imageOffsetY = 0) ∧
    (s.currentScale - 0.2 ≤ 0.3 → decreaseSize (decreaseSize s) = decreaseSize s) ∧
    ((increaseSize s).currentScale ≤ 5.0 ∧
      (0.3 ≤ s.currentScale → 0.3 ≤ (increaseSize s).currentScale)) ∧
    ((increaseSize s).imageOffsetX = s.imageOffsetX ∧
      (increaseSize s).imageOffsetY = s.imageOffsetY) ∧
    (s.currentScale ≤ 5.0 → 5.0 ≤ s.currentScale + 0.2 →
      increaseSize (increaseSize s) = increaseSize s) := by
  have hadjscale : ∀ u : AppState, (adjustSize d u).currentScale =
      min (max (u.currentScale + d) 0.3) 5.0 := by
    intro u
    simp only [adjustSize]
    split <;> rfl
  have hdecscale : ∀ u : AppState, (decreaseSize u).currentScale =
      max (u.currentScale - 0.2) 0.3 := by
    intro u
    simp only [decreaseSize]
    split <;> rfl
  refine ⟨⟨?_, ?_⟩, ?_, ?_, ?_, ?_, ?_, ?_, ?_, ?_, ?_⟩
  · rw [hadjscale]
    exact le_min (le_max_right _ _) (by norm_num)
  · rw [hadjscale]
    exact min_le_right _ _
  · intro h
    rw [hadjscale] at h
    simp only [adjustSize]
    rw [if_pos h]
    exact ⟨rfl, rfl⟩
  · intro h1 h2
    have e1 : adjustSize d s = { s with currentScale := 5.0 } := by
      simp only [adjustSize]
      rw [max_eq_left (by linarith), min_eq_right (by linarith)]
      rw [if_neg (by norm_num)]
    rw [e1]
    simp only [adjustSize]
    rw [max_eq_left (by linarith), min_eq_right (by linarith)]
    rw [if_neg (by norm_num)]
  · intro h1 h2
    have e1 : adjustSize d s =
        { s with currentScale := 0.3, imageOffsetX := 0, imageOffsetY := 0 } := by
      simp only [adjustSize]
      rw [max_eq_right (by linarith), min_eq_left (by norm_num)]
      rw [if_pos (by norm_num)]
    rw [e1]
    simp only [adjustSize]
    rw [max_eq_right (by linarith), min_eq_left (by norm_num)]
    rw [if_pos (by norm_num)]
  · constructor
    · rw [hdecscale]
      exact le_max_right _ _
    · intro h1
      rw [hdecscale]
      exact max_le (by linarith) (by norm_num)
  · intro h
    rw [hdecscale] at h
    simp only [decreaseSize]
    rw [if_pos h]
    exact ⟨rfl, rfl⟩
  · intro h1
    have e1 : decreaseSize s =
        { s with currentScale := 0.3, imageOffsetX := 0, imageOffsetY := 0 } := by
      simp only [decreaseSize]
      rw [max_eq_right (by linarith)]
      rw [if_pos (by norm_num)]
    rw [e1]
    simp only [decreaseSize]
    rw [max_eq_right (by norm_num)]
    rw [if_pos (by norm_num)]
  · constructor
    · exact min_le_right _ _
    · intro h1
      exact le_min (by linarith) (by norm_num)
  · exact ⟨rfl, rfl⟩
  · intro h1 h2
    have e1 : increaseSize s = { s with currentScale := 5.0 } := by
      simp only [increaseSize]
      rw [min_eq_right (by linarith)]
    rw [e1]
    simp only [increaseSize]
    rw [min_eq_right (by norm_num)]

/-- Witness for the amended C9: from the reachable pan state at scale
0.8, an adjustSize delta of 10 clamps to exactly 5.0 and is idempotent
there, and the clamped scale lies in the allowed interval. -/
theorem c9_witness :
    adjustSize 10 (adjustSize 10 panState) = adjustSize 10 panState ∧
    0.3 ≤ (adjustSize 10 panState).currentScale ∧
    (adjustSize 10 panState).currentScale ≤ 5.0 :=
  ⟨(c9_setScale_amended panState 10).2.2.1
      (by norm_num [panState, sampleState, initialState])
      (by norm_num [panState, sampleState, initialState]),
   (c9_setScale_amended panState 10).1.1,
   (c9_setScale_amended panState 10).1.2⟩

/-- Dispatch order forces weakly decreasing priority. -/
theorem taskOrder_le {a b : PreloadTask} (h : taskOrder a b) : b.priority ≤ a.priority := by
  rcases h with h | ⟨h, _⟩
  · exact le_of_lt h
  · exact le_of_eq h.symm

/-- Membership after the priority splice. -/
theorem mem_insertByPriority (t v : PreloadTask) (l : List PreloadTask) :
    v ∈ insertByPriority t l ↔ v = t ∨ v ∈ l := by
  induction l with
  | nil => simp [insertByPriority]
  | cons u us ih =>
    simp only [insertByPriority]
    split
    · simp only [List.mem_cons]
    · simp only [List.mem_cons, ih]
      tauto

/-- The priority splice keeps the queue in dispatch order when the new
task carries a fresh (largest) sequence number. -/
theorem insertByPriority_pairwise (t : PreloadTask) (l : List PreloadTask)
    (hl : l.Pairwise taskOrder) (hf : ∀ u ∈ l, u.seq < t.seq) :
    (insertByPriority t l).Pairwise taskOrder := by
  induction l with
  | nil => simp [insertByPriority, taskOrder]
  | cons u us ih =>
    rcases List.pairwise_cons.1 hl with ⟨hu, hus⟩
    simp only [insertByPriority]
    split
    next h =>
      refine List.pairwise_cons.2 ⟨?_, hl⟩
      intro v hv
      rcases List.mem_cons.1 hv with rfl | hv'
      · exact Or.inl h
      · exact Or.inl (lt_of_le_of_lt (taskOrder_le (hu v hv')) h)
    next h =>
      refine List.pairwise_cons.2
        ⟨?_, ih hus (fun x hx => hf x (List.mem_cons_of_mem _ hx))⟩
      intro v hv
      rcases (mem_insertByPriority t v us).1 hv with rfl | hv'
      · rcases lt_or_eq_of_le (not_lt.1 h) with hlt | heq
        · exact Or.inl hlt
        · exact Or.inr ⟨heq.symm, hf u (List.mem_cons_self _ _)⟩
      · exact hu v hv'

/-- The dispatch loop never changes the limit, the sequence counter or
the cache. -/
theorem dispatchLoop_frame (f : Nat) : ∀ s : PreloadState,
    (dispatchLoop f s).maxConcurrent = s.maxConcurrent ∧
    (dispatchLoop f s).nextSeq = s.nextSeq ∧
    (dispatchLoop f s).cached = s.cached := by
  induction f with
  | zero => exact fun s => ⟨rfl, rfl, rfl⟩
  | succ f ih =>
    intro s
    cases hq : s.queue with
    | nil => simp [dispatchLoop, hq]
    | cons t rest =>
      simp only [dispatchLoop, hq]
      by_cases h : s.active.length < s.maxConcurrent
      · rw [if_pos h]
        exact ih _
      · rw [if_neg h]
        exact ⟨rfl, rfl, rfl⟩

/-- The queue after the dispatch loop is a final segment of the queue
before it. -/
theorem dispatchLoop_queue_drop (f : Nat) : ∀ s : PreloadState,
    ∃ n, (dispatchLoop f s).queue = s.queue.drop n := by
  induction f with
  | zero => exact fun s => ⟨0, rfl⟩
  | succ f ih =>
    intro s
    cases hq : s.queue with
    | nil => exact ⟨0, by simp [dispatchLoop, hq]⟩
    | cons t rest =>
      simp only [dispatchLoop, hq]
      by_cases h : s.active.length < s.maxConcurrent
      · rw [if_pos h]
        obtain ⟨n, hn⟩ := ih { s with queue := rest, active := s.active ++ [t], loading := insertUrl t.url s.loading, loads := s.loads ++ [t.url] }
        refine ⟨n + 1, ?_⟩
        rw [hn]
        simp [List.drop_succ_cons]
      · rw [if_neg h]
        exact ⟨0, by simp [hq]⟩

/-- The dispatch loop keeps the number of active loads within the
limit. -/
theorem dispatchLoop_active_le (f : Nat) : ∀ s : PreloadState,
    s.active.length ≤ s.maxConcurrent →
    (dispatchLoop f s).active.length ≤ s.maxConcurrent := by
  induction f with
  | zero => exact fun s h => h
  | succ f ih =>
    intro s h
    cases hq : s.queue with
    | nil => simpa [dispatchLoop, hq] using h
    | cons t rest =>
      simp only [dispatchLoop, hq]
      by_cases hlt : s.active.length < s.maxConcurrent
      · rw [if_pos hlt]
        exact ih _ (by simp; omega)
      · rw [if_neg hlt]
        exact h

/-- With enough fuel (the loop never runs more than queue.length times)
the dispatch loop stops only with an empty queue or a full slot set. -/
theorem dispatchLoop_saturated (f : Nat) : ∀ s : PreloadState,
    s.queue.length ≤ f →
    (dispatchLoop f s).queue = [] ∨
      s.maxConcurrent ≤ (dispatchLoop f s).active.length := by
  induction f with
  | zero =>
    intro s hf
    left
    simp only [dispatchLoop]
    exact List.eq_nil_of_length_eq_zero (Nat.le_zero.1 hf)
  | succ f ih =>
    intro s hf
    cases hq : s.queue with
    | nil => simp [dispatchLoop, hq]
    | cons t rest =>
      simp only [dispatchLoop, hq]
      by_cases h : s.active.length < s.maxConcurrent
      · rw [if_pos h]
        refine ih _ ?_
        show rest.length ≤ f
        rw [hq] at hf
        simp only [List.length_cons] at hf
        omega
      · rw [if_neg h]
        exact Or.inr (not_lt.1 h)

/-- processQueue establishes the queue invariant from the facts that
survive a queue or active mutation. -/
theorem queueInv_processQueue (s : PreloadState)
    (hp : s.queue.Pairwise taskOrder)
    (hs : ∀ t ∈ s.queue, t.seq < s.nextSeq)
    (ha : s.active.length ≤ s.maxConcurrent) :
    QueueInv (processQueue s) := by
  obtain ⟨n, hq⟩ := dispatchLoop_queue_drop s.queue.length s
  have hfr := dispatchLoop_frame s.queue.length s
  show QueueInv (dispatchLoop s.queue.length s)
  refine ⟨?_, ?_, ?_, ?_⟩
  · rw [hq]
    exact List.Pairwise.sublist (List.drop_sublist _ _) hp
  · intro t ht
    rw [hfr.2.1]
    apply hs
    rw [hq] at ht
    exact List.mem_of_mem_drop ht
  · rw [hfr.1]
    exact dispatchLoop_active_le _ _ ha
  · intro hne
    rcases dispatchLoop_saturated s.queue.length s (le_refl _) with h | h
    · exact absurd h hne
    · have h2 := dispatchLoop_active_le s.queue.length s ha
      rw [hfr.1]
      omega

/-- Every queue event preserves the queue invariant. -/
theorem queueInv_applyEvent (e : QueueEvent) (s : PreloadState) (h : QueueInv s) :
    QueueInv (applyEvent e s) := by
  obtain ⟨hp, hs, ha, hsat⟩ := h
  cases e with
  | add u p =>
    simp only [applyEvent, queueAdd]
    split
    · exact ⟨hp, hs, ha, hsat⟩
    · split
      · exact ⟨hp, hs, ha, hsat⟩
      · apply queueInv_processQueue
        · exact insertByPriority_pairwise _ _ hp (fun t ht => hs t ht)
        · intro t ht
          rcases (mem_insertByPriority _ _ _).1 ht with rfl | ht'
          · exact Nat.lt_succ_self _
          · exact Nat.lt_succ_of_lt (hs t ht')
        · exact ha
  | complete i ok =>
    simp only [applyEvent, queueComplete]
    cases hA : s.active[i]? with
    | none => exact ⟨hp, hs, ha, hsat⟩
    | some task =>
      apply queueInv_processQueue
      · exact hp
      · exact hs
      · exact le_trans (List.Sublist.length_le (List.eraseIdx_sublist _ _)) ha

/-- Queue events never change the concurrency limit. -/
theorem applyEvent_maxConcurrent (e : QueueEvent) (s : PreloadState) :
    (applyEvent e s).maxConcurrent = s.maxConcurrent := by
  cases e with
  | add u p =>
    simp only [applyEvent, queueAdd]
    split
    · rfl
    · split
      · rfl
      · exact (dispatchLoop_frame _ _).1
  | complete i ok =>
    simp only [applyEvent, queueComplete]
    cases hA : s.active[i]? with
    | none => rfl
    | some task => exact (dispatchLoop_frame _ _).1

/-- Event sequences never change the concurrency limit. -/
theorem runEvents_maxConcurrent (es : List QueueEvent) : ∀ s : PreloadState,
    (runEvents es s).maxConcurrent = s.maxConcurrent := by
  induction es with
  | nil => exact fun s => rfl
  | cons e es ih =>
    intro s
    exact (ih (applyEvent e s)).trans (applyEvent_maxConcurrent e s)

/-- The queue invariant holds along every event sequence. -/
theorem queueInv_runEvents (es : List QueueEvent) : ∀ s : PreloadState,
    QueueInv s → QueueInv (runEvents es s) := by
  induction es with
  | nil => exact fun s h => h
  | cons e es ih =>
    intro s h
    exact ih (applyEvent e s) (queueInv_applyEvent e s h)

/-- C5.  From the initial queue with limit k, after any sequence of add
and completion events the number of active loads is at most k; whenever
a task is still pending every one of the k slots is occupied (each
completion immediately refills a freed slot through processQueue); and
the pending queue is pairwise in dispatch order, so the next task
dispatched, the head, is always of maximal priority with ties resolved
by insertion order.  For the spec scenario with k equal to 2 and
priorities 5, 10 and 1 requested back to back: the priority 5 and 10
loads start immediately, the priority 1 request stays queued, and it is
dispatched exactly when one active load completes. -/
theorem c5_preloadQueue_contract (k : Nat) (es : List QueueEvent) :
    (runEvents es (initQueue k)).active.length ≤ k ∧
    ((runEvents es (initQueue k)).queue ≠ [] →
      (runEvents es (initQueue k)).active.length = k) ∧
    (runEvents es (initQueue k)).queue.Pairwise taskOrder ∧
    ((runEvents c5ScenarioEvents (initQueue 2)).active.map (fun t => t.url)
        = ["u1", "u2"] ∧
     (runEvents c5ScenarioEvents (initQueue 2)).queue.map (fun t => t.url) = ["u3"] ∧
     (runEvents c5ScenarioEvents (initQueue 2)).loads = ["u1", "u2"] ∧
     (runEvents (c5ScenarioEvents ++ [QueueEvent.complete 0 true]) (initQueue 2)).loads
        = ["u1", "u2", "u3"]) := by
  have hinit : QueueInv (initQueue k) :=
    ⟨List.Pairwise.nil, fun t ht => absurd ht (List.not_mem_nil t),
     Nat.zero_le _, fun hne => absurd rfl hne⟩
  obtain ⟨hp, hs, ha, hsat⟩ := queueInv_runEvents es (initQueue k) hinit
  have hm : (runEvents es (initQueue k)).maxConcurrent = k :=
    (runEvents_maxConcurrent es (initQueue k)).trans rfl
  rw [hm] at ha hsat
  exact ⟨ha, hsat, hp, by decide, by decide, by decide, by decide⟩

/-- Witness for C5: in the spec scenario both slots are occupied while
the priority 1 task waits. -/
theorem c5_witness :
    (runEvents c5ScenarioEvents (initQueue 2)).active.length = 2 ∧
    (runEvents c5ScenarioEvents (initQueue 2)).active.length ≤ 2 :=
  ⟨(c5_preloadQueue_contract 2 c5ScenarioEvents).2.1 (by decide),
   (c5_preloadQueue_contract 2 c5ScenarioEvents).1⟩

/-- C6 counterexample.  With limit 1, url v occupies the only slot;
request(u, 3) is queued, and a second request(u, 7) arrives while the
first is still queued (not in flight): the duplicate guard checks only
the cache and the in-flight map, so a second task for u is queued, and
after the two completions the load log shows the underlying load of u
performed twice, the second even after u was already cached; the count
is 2, not 1 as claimed. -/
theorem c6_duplicateLoad_counterexample :
    (runEvents c6ScenarioEvents (initQueue 1)).loads = ["v", "u", "u"] ∧
    (runEvents c6ScenarioEvents (initQueue 1)).loads.count "u" = 2 ∧
    (((runEvents c6ScenarioEvents (initQueue 1)).loads.count "u") == 1) = false := by
  decide

/-- C6 as amended.  The deduplication holds for a cached url and for a
url whose load is in flight: in both cases add returns without touching
the queue, the active set or the load log (the caller is served from
the cache or attached to the pending promise).  A url whose earlier
request is still only queued is not deduplicated, as the counterexample
shows. -/
theorem c6_dedup_amended (s : PreloadState) (u : String) (p : Int) :
    (u ∈ s.cached → queueAdd u p s = s) ∧
    (u ∈ s.loading → queueAdd u p s = s) := by
  constructor
  · intro h
    simp [queueAdd, h]
  · intro h
    simp [queueAdd, h]

/-- Witness for the amended C6: a repeat request for the in-flight url v
leaves the queue state unchanged. -/
theorem c6_witness :
    queueAdd "v" 9 (runEvents [QueueEvent.add "v" 5] (initQueue 1)) =
      runEvents [QueueEvent.add "v" 5] (initQueue 1) :=
  (c6_dedup_amended (runEvents [QueueEvent.add "v" 5] (initQueue 1)) "v" 9).2 (by decide)
